import Mathlib

/-!
Shallow embedding of the RepoVerse frontend components:
`ReportGenerator.jsx` (topic submission + progress polling + report fetch),
`ChatInterface.jsx` (chat session over a generated report), and
`ReportDisplay.jsx` (base64 → blob-URL conversion for the PDF preview).
Each definition translates one function or branch of the JavaScript source;
server responses are modelled as explicit inputs to the step functions,
`setTimeout` calls as returned timer records, and `fetch` calls as returned
request records.
-/

/-- Whitespace recognised by the model of JavaScript `String.prototype.trim`:
space, tab, line feed, carriage return, vertical tab and form feed. -/
def jsWhitespace (c : Char) : Bool :=
  c == ' ' || c == '\t' || c == '\n' || c == '\r' ||
    c == Char.ofNat 11 || c == Char.ofNat 12

/-- Model of JavaScript `String.prototype.trim`: drop leading and trailing
whitespace characters. -/
def jsTrim (s : String) : String :=
  String.mk (((s.data.dropWhile jsWhitespace).reverse.dropWhile jsWhitespace).reverse)

/-- Model of the JavaScript idiom `x || dflt` on an optional string:
the default is taken when the field is absent or the empty string (falsy). -/
def jsOrDefault (x : Option String) (dflt : String) : String :=
  match x with
  | none => dflt
  | some t => if t = "" then dflt else t

/-- The four progress flags of the report pipeline
(`{topicAnalysis, dataGathering, draftingReport, finalizing}`). -/
structure Progress where
  topicAnalysis : Bool
  dataGathering : Bool
  draftingReport : Bool
  finalizing : Bool
deriving DecidableEq

/-- The all-false progress record that `handleSubmit` resets to. -/
def Progress.allFalse : Progress :=
  { topicAnalysis := false, dataGathering := false
    draftingReport := false, finalizing := false }

/-- Pointwise order on progress records: every flag true in `p` is true in `q`. -/
def progLe (p q : Progress) : Prop :=
  p.topicAnalysis ≤ q.topicAnalysis ∧ p.dataGathering ≤ q.dataGathering ∧
  p.draftingReport ≤ q.draftingReport ∧ p.finalizing ≤ q.finalizing

instance (p q : Progress) : Decidable (progLe p q) := by
  unfold progLe; infer_instance

/-- State of `ReportGenerator` together with the parent state it writes
through its `setTopic` / `setPdfUrl` / `setIsGenerating` / `setProgress`
props; `intervalActive` records whether the `setInterval` poll is live. -/
structure RGState where
  localTopic : String
  error : String
  topic : String
  pdfUrl : Option String
  isGenerating : Bool
  progress : Progress
  intervalActive : Bool
deriving DecidableEq

/-- Outcome of one `GET /progress/:topic` fetch: a network/HTTP failure
(rejected promise or `!res.ok`) or a JSON body `{progress, is_complete}`. -/
inductive PollResponse where
  | fail
  | ok (progress : Progress) (is_complete : Bool)
deriving DecidableEq

/-- Outcome of the `GET /report/:topic` fetch: failure or a JSON body whose
`pdf_base64` field may be absent. -/
inductive ReportResponse where
  | fail
  | ok (pdf_base64 : Option String)
deriving DecidableEq

/-- An HTTP request issued by the client, tagged by endpoint and payload. -/
inductive NetRequest where
  | generate (topic : String)
  | progressOf (topic : String)
  | reportOf (topic : String)
  | chatInit (session_id : String) (pdf_base64 : String)
  | chatMessage (session_id : String) (message : String)
deriving DecidableEq

/-- What a scheduled `setTimeout` callback does to the chat message list. -/
inductive UiTimerAction where
  | clearAllMessages
  | removeErrorMessages
deriving DecidableEq

/-- A `setTimeout` registration: delay in milliseconds plus its action. -/
structure UiTimer where
  delayMs : Nat
  action : UiTimerAction
deriving DecidableEq

/-- The interval period of the progress poll (`setInterval(..., 1000)`). -/
def pollIntervalMs : Nat := 1000

/-- The fixed string set by the catch branch of the polling interval. -/
def pollErrorText : String := "Error fetching progress or report data."

/-- The catch branch of the polling interval callback:
`setError(...)`, `setIsGenerating(false)`, `clearInterval(interval)`. -/
def pollOnCatch (s : RGState) : RGState :=
  { s with error := pollErrorText, isGenerating := false, intervalActive := false }

/-- Guard of the polling `useEffect`:
`if (!isGenerating || !localTopic) return;` — the interval is started
exactly when generation is in progress and a topic is set. -/
def pollEffectActive (isGenerating : Bool) (localTopic : String) : Bool :=
  isGenerating && !(localTopic == "")

/-- One firing of the polling interval callback. Inputs are the current
state and the observed responses of the `GET /progress/:topic` fetch and
(when reached) the `GET /report/:topic` fetch. Returns the new state, the
requests issued during this firing, and the timers scheduled (none in this
component). A cleared interval no longer fires. -/
def pollCycle (s : RGState) (pr : PollResponse) (rr : ReportResponse) :
    RGState × List NetRequest × List UiTimer :=
  if s.intervalActive then
    match pr with
    | .fail => (pollOnCatch s, [.progressOf s.localTopic], [])
    | .ok prog complete =>
      let s1 := { s with progress := prog }
      if complete then
        let s2 := { s1 with intervalActive := false }
        match rr with
        | .fail => (pollOnCatch s2, [.progressOf s.localTopic, .reportOf s.localTopic], [])
        | .ok pdf =>
          match pdf with
          | some b =>
            if b = "" then
              (pollOnCatch s2, [.progressOf s.localTopic, .reportOf s.localTopic], [])
            else
              ({ s2 with pdfUrl := some ("data:application/pdf;base64," ++ b),
                         isGenerating := false },
               [.progressOf s.localTopic, .reportOf s.localTopic], [])
          | none =>
            (pollOnCatch s2, [.progressOf s.localTopic, .reportOf s.localTopic], [])
      else (s1, [.progressOf s.localTopic], [])
  else (s, [], [])

/-- Repeated firings of the polling interval over a list of response pairs,
collecting every request issued. -/
def runPoll (s : RGState) : List (PollResponse × ReportResponse) → RGState × List NetRequest
  | [] => (s, [])
  | (pr, rr) :: evs =>
    let step := pollCycle s pr rr
    let rest := runPoll step.1 evs
    (rest.1, step.2.1 ++ rest.2)

/-- Outcome of the `POST /generate_report` fetch in `handleSubmit`:
success, or a caught error carrying `err.message` (absent when falsy). -/
inductive GenStartOutcome where
  | ok
  | fail (message : Option String)
deriving DecidableEq

/-- The `handleSubmit` of `ReportGenerator`: guard on the trimmed topic,
optimistic state updates, then the `POST /generate_report` call whose
failure sets the error string and clears the loading flag. -/
def rgHandleSubmit (s : RGState) (o : GenStartOutcome) :
    RGState × List NetRequest × List UiTimer :=
  if jsTrim s.localTopic = "" then (s, [], [])
  else
    let s1 := { s with
      isGenerating := true
      error := ""
      topic := s.localTopic
      pdfUrl := none
      progress := Progress.allFalse }
    match o with
    | .ok => (s1, [.generate s.localTopic], [])
    | .fail m =>
      ({ s1 with error := jsOrDefault m "Error starting report.",
                 isGenerating := false },
       [.generate s.localTopic], [])

/-- Role tag of a chat message (`message.type` in `ChatInterface`). -/
inductive MsgType where
  | system
  | user
  | assistant
  | error
deriving DecidableEq

/-- A chat message record `{type, content}`. -/
structure ChatMessage where
  type : MsgType
  content : String
deriving DecidableEq

/-- Fallback shown when the chat reply's `response` field is falsy. -/
def noResponseText : String := "⚠️ No response from AI."

/-- Error message appended when `POST /chat/message` fails. -/
def submitErrorText : String := "❌ Failed to get AI response. Please try again."

/-- Error message shown when `POST /chat/init` fails. -/
def initFailText : String := "❌ Failed to initialize chat. Please try again."

/-- System message shown on success of `POST /chat/init`
(`topic || "New Report"` interpolated). -/
def initSuccessText (topic : String) : String :=
  "✅ Chat initialized for report \"" ++
    (if topic = "" then "New Report" else topic) ++ "\". You can now ask questions."

/-- Content of the assistant message: `data.response || "⚠️ No response from AI."`. -/
def respText (response : Option String) : String :=
  jsOrDefault response noResponseText

/-- Every `setMessages` occurrence in `ChatInterface.jsx`, as an event:
the `pdfUrl`-change reset, the initialization placeholder, the two
`initChat` outcomes, the 3-second clear after an init error, the three
appends of `handleSubmit`, and the 3-second filter after a send error. -/
inductive ChatEvent where
  | resetClear
  | showInitPlaceholder
  | initSuccess (topic : String)
  | initFailure
  | initErrorTimeout
  | appendUser (text : String)
  | appendAssistant (response : Option String)
  | appendSubmitError
  | submitErrorTimeout
deriving DecidableEq

/-- The effect of one chat event on the message list, together with the
timers it schedules (translating the two `setTimeout(..., 3000)` calls). -/
def chatMsgStep (old : List ChatMessage) : ChatEvent → List ChatMessage × List UiTimer
  | .resetClear => ([], [])
  | .showInitPlaceholder => ([⟨.system, "🕐 Initializing new report chat..."⟩], [])
  | .initSuccess topic => ([⟨.system, initSuccessText topic⟩], [])
  | .initFailure => ([⟨.error, initFailText⟩], [⟨3000, .clearAllMessages⟩])
  | .initErrorTimeout => ([], [])
  | .appendUser t => (old ++ [⟨.user, t⟩], [])
  | .appendAssistant r => (old ++ [⟨.assistant, respText r⟩], [])
  | .appendSubmitError => (old ++ [⟨.error, submitErrorText⟩], [⟨3000, .removeErrorMessages⟩])
  | .submitErrorTimeout => (old.filter (fun m => m.type != MsgType.error), [])

/-- Local state of `ChatInterface`. -/
structure ChatState where
  messages : List ChatMessage
  inputMessage : String
  isLoading : Bool
  sessionId : Option String
deriving DecidableEq

/-- Outcome of the `POST /chat/message` fetch: failure (rejected promise or
`!response.ok`) or a JSON body whose `response` field may be absent. -/
inductive SubmitOutcome where
  | fail
  | ok (response : Option String)
deriving DecidableEq

/-- JavaScript falsiness of the `sessionId` state (`!sessionId`):
true for `null` and for the empty string. -/
def sessionFalsy : Option String → Bool
  | none => true
  | some s => s == ""

/-- The `handleSubmit` of `ChatInterface`: guard
`if (!inputMessage.trim() || !sessionId) return;`, append of the user
message, the `POST /chat/message` request, then the assistant append on
success or the error append plus 3-second filter timer on failure;
`finally` clears `isLoading`. Returns the new state, the request issued
(if any), and the timers scheduled. -/
def handleSubmit (s : ChatState) (outcome : SubmitOutcome) :
    ChatState × Option NetRequest × List UiTimer :=
  if jsTrim s.inputMessage = "" ∨ sessionFalsy s.sessionId = true then (s, none, [])
  else
    let userMessage := jsTrim s.inputMessage
    let sid := s.sessionId.getD ""
    let s1 : ChatState := { s with
      inputMessage := ""
      isLoading := true
      messages := s.messages ++ [⟨.user, userMessage⟩] }
    match outcome with
    | .ok resp =>
      ({ s1 with messages := s1.messages ++ [⟨.assistant, respText resp⟩],
                 isLoading := false },
       some (.chatMessage sid userMessage), [])
    | .fail =>
      ({ s1 with messages := s1.messages ++ [⟨.error, submitErrorText⟩],
                 isLoading := false },
       some (.chatMessage sid userMessage), [⟨3000, .removeErrorMessages⟩])

/-- Value held by `pdfBlobUrl` in `ReportDisplay`: either a string set
verbatim, or the object URL of a blob built from decoded bytes
(`URL.createObjectURL(new Blob([byteArray]))`). -/
inductive BlobUrl where
  | raw (s : String)
  | fromBlob (bytes : List Nat)
deriving DecidableEq

/-- Value of a base64 alphabet character, `none` outside the alphabet. -/
def base64Val (c : Char) : Option Nat :=
  if 'A' ≤ c ∧ c ≤ 'Z' then some (c.toNat - 65)
  else if 'a' ≤ c ∧ c ≤ 'z' then some (c.toNat - 97 + 26)
  else if '0' ≤ c ∧ c ≤ '9' then some (c.toNat - 48 + 52)
  else if c = '+' then some 62
  else if c = '/' then some 63
  else none

/-- Reassemble decoded 6-bit values into bytes (3 bytes per 4 values,
with the standard 1- or 2-byte tail). -/
def decodeB64Chunks : List Nat → List Nat
  | a :: b :: c :: d :: rest =>
    (a * 4 + b / 16) :: ((b % 16) * 16 + c / 4) :: ((c % 4) * 64 + d) ::
      decodeB64Chunks rest
  | [a, b] => [a * 4 + b / 16]
  | [a, b, c] => [a * 4 + b / 16, (b % 16) * 16 + c / 4]
  | _ => []

/-- Model of the browser `atob` (forgiving-base64 decode): strip ASCII
whitespace, strip up to two trailing `=` when the length is a multiple of
four, fail when the remaining length is `1 mod 4` or any character is
outside the base64 alphabet, otherwise produce the decoded bytes. -/
def atob (s : String) : Option (List Nat) :=
  let cs := s.data.filter fun c =>
    !(c == ' ' || c == '\t' || c == '\n' || c == Char.ofNat 12 || c == '\r')
  let cs :=
    if cs.length % 4 = 0 then
      match cs.reverse with
      | '=' :: '=' :: rest => rest.reverse
      | '=' :: rest => rest.reverse
      | _ => cs
    else cs
  if cs.length % 4 = 1 then none
  else
    match cs.mapM base64Val with
    | none => none
    | some vals => some (decodeB64Chunks vals)

/-- Whether the first list is an initial run of the second
(model of JavaScript `String.prototype.startsWith` on char lists). -/
def listIsLeading : List Char → List Char → Bool
  | [], _ => true
  | _ :: _, [] => false
  | a :: as, b :: bs => a == b && listIsLeading as bs

/-- Model of JavaScript `pdfUrl.startsWith(marker)`. -/
def strHasLeading (s marker : String) : Bool :=
  listIsLeading marker.data s.data

/-- The regex replace `pdfUrl.replace(/^data:application\/pdf;base64,/, "")`. -/
def stripDataPdfMarker (s : String) : String :=
  if strHasLeading s "data:application/pdf;base64," then
    String.mk (s.data.drop ("data:application/pdf;base64," : String).data.length)
  else s

/-- The base64→blob `useEffect` of `ReportDisplay`: a `pdfUrl` that is
falsy or already starts with `data:application/pdf` is stored verbatim;
otherwise the marker is stripped, `atob` decodes it, and the catch branch
stores the empty string on failure. -/
def reportDisplayEffect (pdfUrl : String) : BlobUrl :=
  if pdfUrl ≠ "" ∧ strHasLeading pdfUrl "data:application/pdf" = false then
    match atob (stripDataPdfMarker pdfUrl) with
    | some bytes => .fromBlob bytes
    | none => .raw ""
  else .raw pdfUrl

/-- All-true progress record, used as a concrete pre-state. -/
def progAllTrue : Progress :=
  { topicAnalysis := true, dataGathering := true
    draftingReport := true, finalizing := true }

/-- A concrete `ReportGenerator` state mid-generation with a live poll. -/
def rgSample : RGState :=
  { localTopic := "t", error := "", topic := "t", pdfUrl := none,
    isGenerating := true, progress := Progress.allFalse, intervalActive := true }

/-- `rgSample` with every progress flag already reported true. -/
def rgSampleAllTrue : RGState :=
  { rgSample with progress := progAllTrue }

/-- A concrete `ChatInterface` state with a live session and pending input. -/
def chatSample : ChatState :=
  { messages := [⟨.system, "s"⟩], inputMessage := "hi", isLoading := false,
    sessionId := some "sess" }

theorem progLe_refl (p : Progress) : progLe p p := by
  unfold progLe; exact ⟨le_refl _, le_refl _, le_refl _, le_refl _⟩

theorem runPoll_inactive (s : RGState) (h : s.intervalActive = false) :
    ∀ evs, runPoll s evs = (s, []) := by
  intro evs
  induction evs with
  | nil => rfl
  | cons e evs ih =>
    obtain ⟨pr, rr⟩ := e
    simp [runPoll, pollCycle, h, ih]

/-- C1: while generation is in progress with a topic set, the progress poll
runs at a fixed 1-second interval; a live interval is cancelled by a poll
firing exactly when the fetch fails (catch branch) or the server reports
`is_complete`. -/
theorem poll_interval_start_and_cancel (s : RGState) (pr : PollResponse)
    (rr : ReportResponse) (g : Bool) (t : String)
    (hAct : s.intervalActive = true) :
    pollIntervalMs = 1000 ∧
    (pollEffectActive g t = true ↔ (g = true ∧ t ≠ "")) ∧
    ((pollCycle s pr rr).1.intervalActive = false ↔
      (pr = PollResponse.fail ∨ ∃ p, pr = PollResponse.ok p true)) := by
  refine ⟨rfl, ?_, ?_⟩
  · cases g <;> simp [pollEffectActive]
  · cases pr with
    | fail => simp [pollCycle, hAct, pollOnCatch]
    | ok p c =>
      cases c with
      | false => simp [pollCycle, hAct]
      | true =>
        cases rr with
        | fail => simp [pollCycle, hAct, pollOnCatch]
        | ok pdf =>
          cases pdf with
          | none => simp [pollCycle, hAct, pollOnCatch]
          | some b =>
            by_cases hb : b = "" <;> simp [pollCycle, hAct, pollOnCatch, hb]

theorem poll_interval_start_and_cancel_witness :
    rgSample.intervalActive = true ∧
    (pollIntervalMs = 1000 ∧
     (pollEffectActive true "t" = true ↔ (true = true ∧ "t" ≠ "")) ∧
     ((pollCycle rgSample PollResponse.fail ReportResponse.fail).1.intervalActive = false ↔
       (PollResponse.fail = PollResponse.fail ∨
        ∃ p, PollResponse.fail = PollResponse.ok p true))) :=
  ⟨rfl, poll_interval_start_and_cancel rgSample PollResponse.fail ReportResponse.fail
    true "t" rfl⟩

/-- C2: when a poll reports `is_complete`, the report fetch with a non-empty
`pdf_base64` sets `pdfUrl` to the data-URL prefix followed by that field and
clears `isGenerating`; with `pdf_base64` absent the error path runs (error
string set, `isGenerating` false, interval cancelled) and `pdfUrl` stays
`null`. -/
theorem report_fetch_sets_pdf_or_errors (s : RGState) (p : Progress) (b : String)
    (hAct : s.intervalActive = true) (hb : b ≠ "") (hPdf : s.pdfUrl = none) :
    (pollCycle s (.ok p true) (.ok (some b))).1.pdfUrl =
        some ("data:application/pdf;base64," ++ b) ∧
    (pollCycle s (.ok p true) (.ok (some b))).1.isGenerating = false ∧
    (pollCycle s (.ok p true) (.ok none)).1.error = pollErrorText ∧
    (pollCycle s (.ok p true) (.ok none)).1.isGenerating = false ∧
    (pollCycle s (.ok p true) (.ok none)).1.intervalActive = false ∧
    (pollCycle s (.ok p true) (.ok none)).1.pdfUrl = none := by
  simp [pollCycle, hAct, hb, pollOnCatch, hPdf]

theorem report_fetch_sets_pdf_or_errors_witness :
    rgSample.intervalActive = true ∧ ("QQ==" : String) ≠ "" ∧ rgSample.pdfUrl = none ∧
    ((pollCycle rgSample (.ok progAllTrue true) (.ok (some "QQ=="))).1.pdfUrl =
        some ("data:application/pdf;base64," ++ "QQ==") ∧
     (pollCycle rgSample (.ok progAllTrue true) (.ok (some "QQ=="))).1.isGenerating = false ∧
     (pollCycle rgSample (.ok progAllTrue true) (.ok none)).1.error = pollErrorText ∧
     (pollCycle rgSample (.ok progAllTrue true) (.ok none)).1.isGenerating = false ∧
     (pollCycle rgSample (.ok progAllTrue true) (.ok none)).1.intervalActive = false ∧
     (pollCycle rgSample (.ok progAllTrue true) (.ok none)).1.pdfUrl = none) :=
  ⟨rfl, by decide, rfl,
   report_fetch_sets_pdf_or_errors rgSample progAllTrue "QQ==" rfl (by decide) rfl⟩

/-- C3 counterexample: the 3-second auto-clear step removes an error message
from the list, so the message list is not append-only: the new list does not
extend the old one. -/
theorem chat_messages_append_only_cex :
    ¬ ∃ t, (chatMsgStep [⟨MsgType.error, submitErrorText⟩]
              ChatEvent.submitErrorTimeout).1 =
           ⟨MsgType.error, submitErrorText⟩ :: t := by
  intro hex
  obtain ⟨t, h⟩ := hex
  have h0 : (chatMsgStep [⟨MsgType.error, submitErrorText⟩]
      ChatEvent.submitErrorTimeout).1 = [] := rfl
  rw [h0] at h
  exact List.noConfusion h

/-- C3 (amended): the message list is never reordered: every chat state
update either appends to the current list, removes messages while keeping
the relative order of the rest (a sublist), or replaces the list with a
fresh single message. -/
theorem chat_messages_never_reordered (old : List ChatMessage) (ev : ChatEvent) :
    (∃ t, (chatMsgStep old ev).1 = old ++ t) ∨
    List.Sublist (chatMsgStep old ev).1 old ∨
    (∃ m, (chatMsgStep old ev).1 = [m]) := by
  cases ev with
  | resetClear => exact Or.inr (Or.inl (List.nil_sublist old))
  | showInitPlaceholder => exact Or.inr (Or.inr ⟨_, rfl⟩)
  | initSuccess topic => exact Or.inr (Or.inr ⟨_, rfl⟩)
  | initFailure => exact Or.inr (Or.inr ⟨_, rfl⟩)
  | initErrorTimeout => exact Or.inr (Or.inl (List.nil_sublist old))
  | appendUser t => exact Or.inl ⟨_, rfl⟩
  | appendAssistant r => exact Or.inl ⟨_, rfl⟩
  | appendSubmitError => exact Or.inl ⟨_, rfl⟩
  | submitErrorTimeout => exact Or.inr (Or.inl (List.filter_sublist old))

/-- C4 counterexample: the client overwrites its progress state with
whatever the server sends, so a flag already true becomes false again when
a later poll reports it false. -/
theorem progress_monotone_cex :
    rgSampleAllTrue.isGenerating = true ∧
    rgSampleAllTrue.progress.topicAnalysis = true ∧
    (pollCycle rgSampleAllTrue (PollResponse.ok Progress.allFalse false)
        ReportResponse.fail).1.progress.topicAnalysis = false :=
  ⟨rfl, rfl, rfl⟩

/-- C4 (amended): the progress flags are monotone provided every progress
record the server reports is pointwise above the client's current one; the
client itself merely stores the last reported record. -/
theorem progress_monotone_of_server (s : RGState) (pr : PollResponse)
    (rr : ReportResponse)
    (h : ∀ p c, pr = PollResponse.ok p c → progLe s.progress p) :
    progLe s.progress (pollCycle s pr rr).1.progress := by
  by_cases hAct : s.intervalActive = true
  · cases pr with
    | fail =>
      simpa [pollCycle, hAct, pollOnCatch] using progLe_refl s.progress
    | ok p c =>
      have hp := h p c rfl
      cases c with
      | false => simpa [pollCycle, hAct] using hp
      | true =>
        cases rr with
        | fail => simpa [pollCycle, hAct, pollOnCatch] using hp
        | ok pdf =>
          cases pdf with
          | none => simpa [pollCycle, hAct, pollOnCatch] using hp
          | some b =>
            by_cases hb : b = "" <;>
              simpa [pollCycle, hAct, pollOnCatch, hb] using hp
  · have hAct' : s.intervalActive = false := by
      cases hv : s.intervalActive
      · rfl
      · exact absurd hv hAct
    simpa [pollCycle, hAct'] using progLe_refl s.progress

theorem progress_monotone_of_server_witness :
    (∀ p c, PollResponse.ok progAllTrue false = PollResponse.ok p c →
        progLe rgSample.progress p) ∧
    progLe rgSample.progress
      (pollCycle rgSample (PollResponse.ok progAllTrue false)
        ReportResponse.fail).1.progress :=
  ⟨fun p c hpc => by injection hpc with h1 h2; subst h1; decide,
   progress_monotone_of_server rgSample (PollResponse.ok progAllTrue false)
     ReportResponse.fail
     (fun p c hpc => by injection hpc with h1 h2; subst h1; decide)⟩

/-- C5: every failing fetch surfaces a UI string: the chat-init failure
shows an error message and schedules a 3000 ms full clear, the chat-message
failure appends an error message and schedules a 3000 ms error filter, the
corresponding timeout events remove those messages, while no
`ReportGenerator` step (submission or poll cycle) ever schedules a timer,
and its failure paths set the error string instead. -/
theorem errors_surfaced_and_autodismissed :
    (∀ old, (chatMsgStep old ChatEvent.initFailure).1 =
              [⟨MsgType.error, initFailText⟩] ∧
            (chatMsgStep old ChatEvent.initFailure).2 =
              [⟨3000, UiTimerAction.clearAllMessages⟩]) ∧
    (∀ old, (chatMsgStep old ChatEvent.appendSubmitError).1 =
              old ++ [⟨MsgType.error, submitErrorText⟩] ∧
            (chatMsgStep old ChatEvent.appendSubmitError).2 =
              [⟨3000, UiTimerAction.removeErrorMessages⟩]) ∧
    (∀ old, (chatMsgStep old ChatEvent.initErrorTimeout).1 = []) ∧
    (∀ old, (chatMsgStep old ChatEvent.submitErrorTimeout).1 =
              old.filter fun m => m.type != MsgType.error) ∧
    (∀ s pr rr, (pollCycle s pr rr).2.2 = []) ∧
    (∀ s o, (rgHandleSubmit s o).2.2 = []) ∧
    (∀ (s : RGState) rr,
        (pollCycle { s with intervalActive := true }
          PollResponse.fail rr).1.error = pollErrorText) ∧
    (∀ (s : RGState) m,
        (rgHandleSubmit { s with localTopic := "t" }
          (GenStartOutcome.fail m)).1.error =
        jsOrDefault m "Error starting report.") := by
  refine ⟨fun old => ⟨rfl, rfl⟩, fun old => ⟨rfl, rfl⟩, fun old => rfl,
          fun old => rfl, ?_, ?_, ?_, ?_⟩
  · intro s pr rr
    by_cases hAct : s.intervalActive = true
    · cases pr with
      | fail => simp [pollCycle, hAct]
      | ok p c =>
        cases c with
        | false => simp [pollCycle, hAct]
        | true =>
          cases rr with
          | fail => simp [pollCycle, hAct]
          | ok pdf =>
            cases pdf with
            | none => simp [pollCycle, hAct]
            | some b => by_cases hb : b = "" <;> simp [pollCycle, hAct, hb]
    · have hAct' : s.intervalActive = false := by
        cases hv : s.intervalActive
        · rfl
        · exact absurd hv hAct
      simp [pollCycle, hAct']
  · intro s o
    by_cases ht : jsTrim s.localTopic = ""
    · simp [rgHandleSubmit, ht]
    · cases o <;> simp [rgHandleSubmit, ht]
  · intro s rr
    simp [pollCycle, pollOnCatch]
  · intro s m
    have ht : jsTrim "t" ≠ "" := by decide
    simp [rgHandleSubmit, ht]

/-- C6: an error during the poll or the report fetch yields exactly the
error string, `isGenerating := false` and a cancelled interval; the other
state fields are untouched and no later interval firing issues any further
request. -/
theorem poll_error_no_retry (s : RGState) (pr : PollResponse)
    (rr : ReportResponse) (hAct : s.intervalActive = true)
    (hErr : pr = PollResponse.fail ∨
            ∃ p, pr = PollResponse.ok p true ∧
              (rr = ReportResponse.fail ∨ rr = ReportResponse.ok none)) :
    (pollCycle s pr rr).1.error = pollErrorText ∧
    (pollCycle s pr rr).1.isGenerating = false ∧
    (pollCycle s pr rr).1.intervalActive = false ∧
    (pollCycle s pr rr).1.pdfUrl = s.pdfUrl ∧
    (pollCycle s pr rr).1.topic = s.topic ∧
    (pollCycle s pr rr).1.localTopic = s.localTopic ∧
    (∀ evs, runPoll (pollCycle s pr rr).1 evs = ((pollCycle s pr rr).1, [])) := by
  obtain hf | ⟨p, hpr, hrr⟩ := hErr
  · subst hf
    refine ⟨?_, ?_, ?_, ?_, ?_, ?_, ?_⟩ <;>
      simp [pollCycle, hAct, pollOnCatch]
    intro evs
    exact runPoll_inactive _ (by simp [pollCycle, hAct, pollOnCatch]) evs
  · subst hpr
    obtain h1 | h1 := hrr <;> subst h1 <;>
      refine ⟨?_, ?_, ?_, ?_, ?_, ?_, ?_⟩ <;>
        simp [pollCycle, hAct, pollOnCatch] <;>
      intro evs <;>
      exact runPoll_inactive _ (by simp [pollCycle, hAct, pollOnCatch]) evs

theorem poll_error_no_retry_witness :
    rgSample.intervalActive = true ∧
    (PollResponse.fail = PollResponse.fail ∨
     ∃ p, PollResponse.fail = PollResponse.ok p true ∧
       (ReportResponse.fail = ReportResponse.fail ∨
        ReportResponse.fail = ReportResponse.ok none)) ∧
    ((pollCycle rgSample PollResponse.fail ReportResponse.fail).1.error = pollErrorText ∧
     (pollCycle rgSample PollResponse.fail ReportResponse.fail).1.isGenerating = false ∧
     (pollCycle rgSample PollResponse.fail ReportResponse.fail).1.intervalActive = false ∧
     (pollCycle rgSample PollResponse.fail ReportResponse.fail).1.pdfUrl = rgSample.pdfUrl ∧
     (pollCycle rgSample PollResponse.fail ReportResponse.fail).1.topic = rgSample.topic ∧
     (pollCycle rgSample PollResponse.fail ReportResponse.fail).1.localTopic =
       rgSample.localTopic ∧
     (∀ evs, runPoll (pollCycle rgSample PollResponse.fail ReportResponse.fail).1 evs =
       ((pollCycle rgSample PollResponse.fail ReportResponse.fail).1, []))) :=
  ⟨rfl, Or.inl rfl,
   poll_error_no_retry rgSample PollResponse.fail ReportResponse.fail rfl (Or.inl rfl)⟩

/-- C7: with a non-empty trimmed input and a live session, submitting a chat
message issues `POST /chat/message {session_id, message}` and, on success,
appends the user message then one assistant message whose content is the
reply's `response` field, falling back to the fixed string when that field
is absent or empty; `isLoading` ends up false. -/
theorem chat_submit_success (s : ChatState) (sid : String) (resp : Option String)
    (h1 : jsTrim s.inputMessage ≠ "") (h2 : s.sessionId = some sid) (h3 : sid ≠ "") :
    (handleSubmit s (SubmitOutcome.ok resp)).2.1 =
        some (NetRequest.chatMessage sid (jsTrim s.inputMessage)) ∧
    (handleSubmit s (SubmitOutcome.ok resp)).1.messages =
        s.messages ++ [⟨MsgType.user, jsTrim s.inputMessage⟩,
                       ⟨MsgType.assistant, respText resp⟩] ∧
    (handleSubmit s (SubmitOutcome.ok resp)).1.isLoading = false ∧
    (∀ t, resp = some t → t ≠ "" → respText resp = t) ∧
    ((resp = none ∨ resp = some "") → respText resp = noResponseText) := by
  have hside : sessionFalsy (some sid) = false := by
    simp [sessionFalsy, h3]
  refine ⟨?_, ?_, ?_, ?_, ?_⟩
  · simp [handleSubmit, h2, hside, h1]
  · simp [handleSubmit, h2, hside, h1]
  · simp [handleSubmit, h2, hside, h1]
  · intro t ht hne
    simp [respText, jsOrDefault, ht, hne]
  · intro hcase
    obtain hcase | hcase := hcase <;> simp [respText, jsOrDefault, hcase]

theorem chat_submit_success_witness :
    jsTrim chatSample.inputMessage ≠ "" ∧ chatSample.sessionId = some "sess" ∧
    ("sess" : String) ≠ "" ∧
    ((handleSubmit chatSample (SubmitOutcome.ok (some "fine"))).2.1 =
        some (NetRequest.chatMessage "sess" (jsTrim chatSample.inputMessage)) ∧
     (handleSubmit chatSample (SubmitOutcome.ok (some "fine"))).1.messages =
        chatSample.messages ++
          [⟨MsgType.user, jsTrim chatSample.inputMessage⟩,
           ⟨MsgType.assistant, respText (some "fine")⟩] ∧
     (handleSubmit chatSample (SubmitOutcome.ok (some "fine"))).1.isLoading = false ∧
     (∀ t, some "fine" = some t → t ≠ "" → respText (some "fine") = t) ∧
     ((some "fine" = none ∨ some "fine" = some "") →
        respText (some "fine") = noResponseText)) :=
  ⟨by decide, rfl, by decide,
   chat_submit_success chatSample "sess" (some "fine") (by decide) rfl (by decide)⟩

/-- C8: with an empty trimmed input or no session, `handleSubmit` is a
no-op: no request is issued, no timer scheduled, and the whole chat state
(messages, input, `isLoading`, `sessionId`) is unchanged. -/
theorem chat_submit_noop (s : ChatState) (o : SubmitOutcome)
    (h : jsTrim s.inputMessage = "" ∨ sessionFalsy s.sessionId = true) :
    handleSubmit s o = (s, none, []) := by
  unfold handleSubmit
  rw [if_pos h]

theorem chat_submit_noop_witness :
    (jsTrim (ChatState.inputMessage ⟨[], "  ", false, some "sess"⟩) = "" ∨
     sessionFalsy (ChatState.sessionId ⟨[], "  ", false, some "sess"⟩) = true) ∧
    handleSubmit ⟨[], "  ", false, some "sess"⟩ SubmitOutcome.fail =
      (⟨[], "  ", false, some "sess"⟩, none, []) :=
  ⟨Or.inl (by decide),
   chat_submit_noop ⟨[], "  ", false, some "sess"⟩ SubmitOutcome.fail
     (Or.inl (by decide))⟩

/-- C9: a `pdfUrl` that already starts with `data:application/pdf` is stored
in `pdfBlobUrl` verbatim with no decoding; any other non-empty `pdfUrl` goes
through the base64 decode, whose failure stores the empty string instead of
throwing. -/
theorem pdf_blob_conversion (u : String) (h : u ≠ "") :
    (strHasLeading u "data:application/pdf" = true →
       reportDisplayEffect u = BlobUrl.raw u) ∧
    (strHasLeading u "data:application/pdf" = false →
       (∀ bs, atob (stripDataPdfMarker u) = some bs →
          reportDisplayEffect u = BlobUrl.fromBlob bs) ∧
       (atob (stripDataPdfMarker u) = none →
          reportDisplayEffect u = BlobUrl.raw "")) := by
  constructor
  · intro hs
    simp [reportDisplayEffect, hs]
  · intro hs
    constructor
    · intro bs hb
      simp [reportDisplayEffect, h, hs, hb]
    · intro hb
      simp [reportDisplayEffect, h, hs, hb]

theorem pdf_blob_conversion_witness :
    ("%%" : String) ≠ "" ∧
    ((strHasLeading "%%" "data:application/pdf" = true →
       reportDisplayEffect "%%" = BlobUrl.raw "%%") ∧
     (strHasLeading "%%" "data:application/pdf" = false →
       (∀ bs, atob (stripDataPdfMarker "%%") = some bs →
          reportDisplayEffect "%%" = BlobUrl.fromBlob bs) ∧
       (atob (stripDataPdfMarker "%%") = none →
          reportDisplayEffect "%%" = BlobUrl.raw ""))) :=
  ⟨by decide, pdf_blob_conversion "%%" (by decide)⟩

/-- C10: the 3-second auto-clear after a failed `POST /chat/message` filters
the list: a message survives exactly when its type is not `error`, and the
surviving messages keep their relative order (the result is a sublist). -/
theorem error_autoclear_exact (old : List ChatMessage) :
    (chatMsgStep old ChatEvent.submitErrorTimeout).1 =
      old.filter (fun m => m.type != MsgType.error) ∧
    List.Sublist (chatMsgStep old ChatEvent.submitErrorTimeout).1 old ∧
    (∀ m, m ∈ (chatMsgStep old ChatEvent.submitErrorTimeout).1 ↔
      (m ∈ old ∧ m.type ≠ MsgType.error)) := by
  refine ⟨rfl, ?_, ?_⟩
  · exact List.filter_sublist old
  · intro m
    simp [chatMsgStep, List.mem_filter]
